import Mathlib

/-!
Verification of the LAIM request-proxying and streaming-relay service.

The definitions below are a shallow embedding of the Go sources:
the line-delimited stream relay of src/unnamed/part_003 (callGenerateAPI and
callChatAPI together with the accumulating browser readers embedded in the
same file), the SQLite-backed conversation store of src/main.go, the chat-turn
orchestration of src/newscript.js, and the rate limiter of src/main.go.
Timestamps are natural numbers (one time unit = one second, so one minute of
the Go code is 60 units); SQL tables are lists of rows in insertion order.
-/

set_option maxRecDepth 8000

namespace LAIM

/-- Role and content of one chat message on the wire (the Message struct of
src/unnamed/part_003). -/
structure WireMsg where
  role : String
  content : String
deriving DecidableEq, Repr

/-- One line-delimited streaming record from the backend (OllamaResponseChunk
in src/unnamed/part_003): a response fragment used by the generate API, an
optional message used by the chat API, and the done flag. -/
structure Chunk where
  response : String
  message : Option WireMsg
  done : Bool
deriving DecidableEq, Repr

/-- Fragment field of a record for the generate API: the response string. -/
def fragGen (c : Chunk) : String := c.response

/-- Fragment field of a record for the chat API: the message content, empty
when the record carries no message. -/
def fragChat (c : Chunk) : String :=
  match c.message with
  | some m => m.content
  | none => ""

/-- Forwarding guard of the chat relay loop in src/unnamed/part_003
(chunk.Message is not nil and chunk.Message.Content is not empty), which is
also the accumulation guard of the browser readers. -/
def chatGuard (c : Chunk) : Bool :=
  match c.message with
  | some m => m.content != ""
  | none => false

/-- One operation the relay performs on the client sink: write one record as a
data line, flush the connection, or write the terminal DONE marker. -/
inductive SinkOp where
  | write (c : Chunk)
  | flush
  | writeDone
deriving DecidableEq, Repr

/-- Relay loop of callGenerateAPI (src/unnamed/part_003, lines 1354-1377): each
record whose response fragment is non-empty is written as a data line and the
sink is flushed before the next record is read; a record with done set makes
the relay write the DONE marker, flush and stop. -/
def relayGen : List Chunk → List SinkOp
  | [] => []
  | c :: rest =>
    let fwd := if c.response = "" then [] else [SinkOp.write c, SinkOp.flush]
    if c.done then fwd ++ [SinkOp.writeDone, SinkOp.flush]
    else fwd ++ relayGen rest

/-- Relay loop of callChatAPI (src/unnamed/part_003, lines 1430-1453): same as
the generate relay, forwarding a record only when it carries a message with
non-empty content. -/
def relayChat : List Chunk → List SinkOp
  | [] => []
  | c :: rest =>
    let fwd := if chatGuard c then [SinkOp.write c, SinkOp.flush] else []
    if c.done then fwd ++ [SinkOp.writeDone, SinkOp.flush]
    else fwd ++ relayChat rest

/-- Accumulation performed by the browser reader of the generate stream
(embedded JS of src/unnamed/part_003, lines 922-944): every data record whose
response is non-empty is appended to fullResponse; the DONE marker stops the
reader. -/
def accumGen : List SinkOp → String
  | [] => ""
  | SinkOp.write c :: rest =>
    (if c.response = "" then "" else c.response) ++ accumGen rest
  | SinkOp.flush :: rest => accumGen rest
  | SinkOp.writeDone :: _ => ""

/-- Accumulation performed by the browser reader of the chat stream (embedded
JS of src/unnamed/part_003, lines 1054-1082): every data record carrying a
message with non-empty content is appended; the DONE marker stops the
reader. -/
def accumChat : List SinkOp → String
  | [] => ""
  | SinkOp.write c :: rest =>
    (if chatGuard c then fragChat c else "") ++ accumChat rest
  | SinkOp.flush :: rest => accumChat rest
  | SinkOp.writeDone :: _ => ""

/-- Data records actually written to the client sink, in order. -/
def writtenRecords (ops : List SinkOp) : List Chunk :=
  ops.filterMap fun op =>
    match op with
    | SinkOp.write c => some c
    | _ => none

/-- Sink operations the generate relay emits for one record that does not end
the stream. -/
def genBlock (c : Chunk) : List SinkOp :=
  if c.response = "" then [] else [SinkOp.write c, SinkOp.flush]

/-- Sink operations the chat relay emits for one record that does not end the
stream. -/
def chatBlock (c : Chunk) : List SinkOp :=
  if chatGuard c then [SinkOp.write c, SinkOp.flush] else []

/-- Persisted chat row (the Chat struct and the chats table of src/main.go). -/
structure ChatRow where
  id : String
  sessionId : String
  title : String
  model : String
  createdAt : Nat
  updatedAt : Nat
deriving DecidableEq, Repr

/-- Persisted message row (the Message struct and the messages table of
src/main.go). -/
structure MsgRow where
  id : String
  chatId : String
  role : String
  content : String
  createdAt : Nat
deriving DecidableEq, Repr

/-- The SQLite database of src/main.go restricted to the tables the claims
touch: session ids, chat rows and message rows, each table as a list of rows
in insertion order. -/
structure Store where
  sessions : List String
  chats : List ChatRow
  msgs : List MsgRow
deriving DecidableEq, Repr

/-- Reply of one HTTP handler of src/main.go: a 200 body, or the status and
error code written by sendError. -/
inductive HandlerResult (α : Type) where
  | ok (a : α)
  | err (status : Nat) (code : String)
deriving DecidableEq, Repr

/-- Insertion into a list ordered by ascending createdAt, keeping earlier rows
first on ties. -/
def insertByCreatedAt (m : MsgRow) : List MsgRow → List MsgRow
  | [] => [m]
  | x :: xs =>
    if m.createdAt < x.createdAt then m :: x :: xs else x :: insertByCreatedAt m xs

/-- Ordering of the SQL clause ORDER BY created_at ASC. -/
def sortByCreatedAt : List MsgRow → List MsgRow
  | [] => []
  | x :: xs => insertByCreatedAt x (sortByCreatedAt xs)

/-- Message query shared by getChatMessages and by the history load of
handleOllamaChat (src/main.go): all messages of the given chat id, ordered by
created_at, selected with no condition on the requesting session. -/
def chatMessages (st : Store) (chatId : String) : List MsgRow :=
  sortByCreatedAt (st.msgs.filter fun m => m.chatId == chatId)

/-- GET /api/chats/ with a chat id (withAuth, handleChatDetail and
getChatMessages of src/main.go): the session header must be present and name
an existing session; the chat id must be non-empty; the messages of the
requested chat are then returned, with no ownership comparison between the
requesting session and the chat. -/
def handleChatDetailGet (st : Store) (sessionId chatId : String) :
    HandlerResult (List MsgRow) :=
  if sessionId = "" then .err 401 "AUTH_REQUIRED"
  else if st.sessions.contains sessionId then
    (if chatId = "" then .err 400 "INVALID_REQUEST"
     else .ok (chatMessages st chatId))
  else .err 401 "INVALID_SESSION"

/-- SQL effect of deleteChat (src/main.go, lines 610-622): the statement
DELETE FROM chats WHERE id = the given id removes the chat row only; the
messages table is not touched, and SQLite foreign-key enforcement is never
enabled, so nothing cascades. -/
def deleteChatRows (st : Store) (chatId : String) : Store :=
  { st with chats := st.chats.filter fun c => c.id != chatId }

/-- DELETE /api/chats/ with a chat id (withAuth, handleChatDetail and
deleteChat of src/main.go): session check, then the unconditional delete of
the chat row, with no ownership check. -/
def handleChatDelete (st : Store) (sessionId chatId : String) :
    HandlerResult Unit × Store :=
  if sessionId = "" then (.err 401 "AUTH_REQUIRED", st)
  else if st.sessions.contains sessionId then
    (if chatId = "" then (.err 400 "INVALID_REQUEST", st)
     else (.ok (), deleteChatRows st chatId))
  else (.err 401 "INVALID_SESSION", st)

/-- SQL effect of updateChat (src/main.go): the statement UPDATE chats SET
title, updated_at WHERE id = the given id rewrites title and updated_at of the
matching chat row. -/
def renameChatRows (st : Store) (chatId title : String) (now : Nat) : Store :=
  { st with chats := st.chats.map fun c =>
      if c.id == chatId then { c with title := title, updatedAt := now } else c }

/-- PUT /api/chats/ with a chat id (withAuth, handleChatDetail and updateChat
of src/main.go): session check, title at most 200 bytes, then the rename with
a fresh updated_at, with no ownership check. -/
def handleChatUpdate (st : Store) (sessionId chatId title : String) (now : Nat) :
    HandlerResult Unit × Store :=
  if sessionId = "" then (.err 401 "AUTH_REQUIRED", st)
  else if st.sessions.contains sessionId then
    (if chatId = "" then (.err 400 "INVALID_REQUEST", st)
     else if 200 < title.utf8ByteSize then (.err 400 "VALIDATION_ERROR", st)
     else (.ok (), renameChatRows st chatId title now))
  else (.err 401 "INVALID_SESSION", st)

/-- POST /api/messages (handleMessages of src/main.go): the role must be user,
assistant or system and the content at most 50000 bytes; the message row is
inserted and updated_at of the matching chat row is set to the same server
timestamp. The chat id is checked neither for existence nor for ownership. -/
def appendMessage (st : Store) (chatId role content msgId : String) (now : Nat) :
    HandlerResult String × Store :=
  if role = "user" ∨ role = "assistant" ∨ role = "system" then
    (if 50000 < content.utf8ByteSize then (.err 400 "VALIDATION_ERROR", st)
     else
       (.ok msgId,
        { sessions := st.sessions,
          chats := st.chats.map fun c =>
            if c.id == chatId then { c with updatedAt := now } else c,
          msgs := st.msgs ++ [⟨msgId, chatId, role, content, now⟩] }))
  else (.err 400 "VALIDATION_ERROR", st)

/-- POST /api/chats (createChat of src/main.go): a title longer than 200 bytes
is rejected as VALIDATION_ERROR before any insert, an empty title becomes the
default New Chat, and the chat row is inserted with created_at and updated_at
both set to the request time. -/
def createChat (st : Store) (sessionId title model chatId : String) (now : Nat) :
    HandlerResult ChatRow × Store :=
  if 200 < title.utf8ByteSize then (.err 400 "VALIDATION_ERROR", st)
  else
    let t := if title = "" then "New Chat" else title
    let row : ChatRow :=
      { id := chatId, sessionId := sessionId, title := t, model := model,
        createdAt := now, updatedAt := now }
    (.ok row, { st with chats := st.chats ++ [row] })

/-- History load of handleOllamaChat (src/main.go, lines 884-907): after the
session check, the full message history of the requested chat is loaded and
fed to the backend, with no ownership check against the requesting session. -/
def ollamaChatHistory (st : Store) (sessionId chatId : String) :
    HandlerResult (List MsgRow) :=
  if sessionId = "" then .err 401 "AUTH_REQUIRED"
  else if st.sessions.contains sessionId then .ok (chatMessages st chatId)
  else .err 401 "INVALID_SESSION"

/-- Outcome of the single backend call a handler makes: the connection fails,
or an HTTP response arrives carrying a status, the raw body text, and the
line-delimited records parsed from that body. -/
structure BackendResp where
  status : Nat
  rawBody : String
  records : List Chunk
deriving DecidableEq, Repr

/-- Result of one backend connection attempt. -/
inductive BackendResult where
  | connError
  | ok (r : BackendResp)
deriving DecidableEq, Repr

/-- Reply of the part_003 action dispatcher: an HTTP error with status and
message text, or a relayed stream of sink operations. -/
inductive DispatchOut where
  | httpError (status : Nat) (body : String)
  | stream (ops : List SinkOp)
deriving DecidableEq, Repr

/-- Prefix of the connection-failure message of src/unnamed/part_003 (the
concrete error text of the failed dial is appended at run time). -/
def connectErrMsg : String :=
  "Could not connect to Ollama. Please ensure Ollama is running on http://localhost:11434. "

/-- Error text written for a non-200 backend status in src/unnamed/part_003:
the backend status and the trimmed backend body. -/
def rejectMsg (status : Nat) (body : String) : String :=
  "Ollama API error: Status " ++ toString status ++ ", Message: " ++ body.trim

/-- callGenerateAPI of src/unnamed/part_003 (lines 1309-1382): one backend
attempt (the result of backend 0); a connection error becomes a 502 with the
connect message, a non-200 status is surfaced with the backend status and
trimmed body, and a 200 response is run through the generate relay. -/
def callGenerateAPI (backend : Nat → BackendResult) : DispatchOut :=
  match backend 0 with
  | .connError => .httpError 502 connectErrMsg
  | .ok r =>
    if r.status = 200 then .stream (relayGen r.records)
    else .httpError r.status (rejectMsg r.status r.rawBody)

/-- Reply of handleGenerate in src/main.go: a sendError reply, or the backend
body copied verbatim to the client as an event stream (io.Copy followed by one
final flush). -/
inductive MainOut where
  | sendError (status : Nat) (code : String)
  | streamBody (raw : String)
deriving DecidableEq, Repr

/-- handleGenerate of src/main.go (lines 826-865): one backend attempt; a
connection error becomes a 503 with code OLLAMA_ERROR; any response that
arrives, whatever its status, is copied to the client unchanged with a 200
event-stream reply. -/
def handleGenerate (backend : Nat → BackendResult) : MainOut :=
  match backend 0 with
  | .connError => .sendError 503 "OLLAMA_ERROR"
  | .ok r => .streamBody r.rawBody

/-- Backend outcome seen by one chat turn through handleOllamaChat of
src/main.go: a failed connection (surfaced to the browser as a non-ok reply),
or a stream of records copied verbatim to the browser. -/
inductive BackendOutcome where
  | connError
  | stream (records : List Chunk)
deriving DecidableEq, Repr

/-- Accumulation of the browser reader of src/newscript.js (lines 405-426):
for every streamed record carrying a message with non-empty content, the
content is appended. The raw backend lines reach this reader unchanged because
handleOllamaChat copies the body verbatim. -/
def accumClient : List Chunk → String
  | [] => ""
  | c :: rest => (if chatGuard c then fragChat c else "") ++ accumClient rest

/-- One full chat turn as orchestrated by sendMessage in src/newscript.js:
persist the user message through POST /api/messages, then call POST /api/chat;
when the backend connection fails the handler replies 503 and the client
throws before any assistant append; when a stream arrives the reader
accumulates its fragments and the accumulated assistant message is persisted
through a second POST /api/messages. -/
def chatTurn (st : Store) (chatId userMsg uid aid : String) (t1 t2 : Nat)
    (backend : BackendOutcome) : HandlerResult Unit × Store :=
  let r1 := appendMessage st chatId "user" userMsg uid t1
  match r1.1 with
  | .err s c => (.err s c, r1.2)
  | .ok _ =>
    match backend with
    | .connError => (.err 503 "OLLAMA_ERROR", r1.2)
    | .stream records =>
      let r2 := appendMessage r1.2 chatId "assistant" (accumClient records) aid t2
      match r2.1 with
      | .err s c => (.err s c, r2.2)
      | .ok _ => (.ok (), r2.2)

/-- Number of persisted messages of one chat. -/
def msgCount (st : Store) (chatId : String) : Nat :=
  (st.msgs.filter fun m => m.chatId == chatId).length

/-- One mutating request against the chats and messages tables of src/main.go,
named by the handler that serves it. -/
inductive StoreOp where
  | create (sessionId title model chatId : String)
  | append (chatId role content msgId : String)
  | rename (chatId title : String)
  | delete (chatId : String)
deriving DecidableEq, Repr

/-- Effect of one request on the store at server time now, discarding the HTTP
reply: createChat, handleMessages, the update of updateChat (after its title
length check), and the delete of deleteChat. -/
def applyOp (st : Store) (now : Nat) : StoreOp → Store
  | .create sid t m cid => (createChat st sid t m cid now).2
  | .append cid r c mid => (appendMessage st cid r c mid now).2
  | .rename cid t => if 200 < t.utf8ByteSize then st else renameChatRows st cid t now
  | .delete cid => deleteChatRows st cid

/-- Lookup of one chat row by id. -/
def findChat (st : Store) (chatId : String) : Option ChatRow :=
  st.chats.find? fun c => c.id == chatId

/-- Per-key counter of the rate limiter (RequestCounter of src/main.go). -/
structure RequestCounter where
  count : Nat
  resetTime : Nat
deriving DecidableEq, Repr

/-- RateLimiter.Allow of src/main.go (lines 215-236) for one key: a missing
counter, or one whose reset time lies strictly in the past, starts a fresh
one-minute window with count 1 and allows the request; inside a live window
the request is allowed while the count is below 60 and rejected from 60 on,
the rejected request leaving the counter unchanged. -/
def rlAllow (st : Option RequestCounter) (now : Nat) : Bool × RequestCounter :=
  match st with
  | none => (true, ⟨1, now + 60⟩)
  | some c =>
    if c.resetTime < now then (true, ⟨1, now + 60⟩)
    else if 60 ≤ c.count then (false, c)
    else (true, ⟨c.count + 1, c.resetTime⟩)

/-- Decisions of a sequence of requests on one key, threading the counter. -/
def rlRun (st : Option RequestCounter) : List Nat → List Bool
  | [] => []
  | t :: ts =>
    let r := rlAllow st t
    r.1 :: rlRun (some r.2) ts

/-- Key selection of withRateLimit in src/main.go: the session header when
present, the remote address otherwise. -/
def rateKey (sessionHeader remoteAddr : String) : String :=
  if sessionHeader = "" then remoteAddr else sessionHeader

/-- withRateLimit of src/main.go (lines 340-354) on one keyed counter: a
request the limiter rejects is answered 429 with code RATE_LIMIT and the
wrapped handler does not run; otherwise the wrapped handler answers. -/
def withRateLimit (st : Option RequestCounter) (now : Nat)
    (next : HandlerResult Unit) : HandlerResult Unit × RequestCounter :=
  let r := rlAllow st now
  (if r.1 then next else .err 429 "RATE_LIMIT", r.2)

/-- First record of the example scenario of the spec: message content Hi, not
done. -/
def exRec1 : Chunk := { response := "", message := some ⟨"assistant", "Hi"⟩, done := false }

/-- Second record of the example scenario: message content consisting of a
space and the word there, not done. -/
def exRec2 : Chunk := { response := "", message := some ⟨"assistant", " there"⟩, done := false }

/-- Third record of the example scenario: empty message content, done set. -/
def exRec3 : Chunk := { response := "", message := some ⟨"assistant", ""⟩, done := true }

/-- Store of one registered session holding one empty chat, used to run
concrete chat turns. -/
def turnStore : Store := ⟨["s1"], [⟨"c1", "s1", "New Chat", "mistral", 0, 0⟩], []⟩

/-- Truncated example source: the first two records of the example scenario,
the stream closing before any done record. -/
def truncStream : List Chunk := [exRec1, exRec2]

/-- Clean example source: the same two fragments followed by the empty done
record. -/
def cleanStream : List Chunk := [exRec1, exRec2, exRec3]

/-- First registered session of the cross-session scenario. -/
def sessA : String := "sess-a"

/-- Second registered session, owner of the probed chat. -/
def sessB : String := "sess-b"

/-- Chat owned by session B. -/
def chatOfB : ChatRow := ⟨"c1", sessB, "B chat", "mistral", 0, 1⟩

/-- Message stored in the chat of session B. -/
def secretMsg : MsgRow := ⟨"m1", "c1", "user", "private text of B", 1⟩

/-- Store holding both sessions, the chat of B and its message. -/
def leakStore : Store := ⟨[sessA, sessB], [chatOfB], [secretMsg]⟩

/-- Chat of the delete scenario. -/
def c8Chat : ChatRow := ⟨"c8", "s1", "t", "m", 0, 0⟩

/-- First message of the delete scenario. -/
def c8Msg1 : MsgRow := ⟨"m81", "c8", "user", "hello", 1⟩

/-- Second message of the delete scenario. -/
def c8Msg2 : MsgRow := ⟨"m82", "c8", "assistant", "hi", 2⟩

/-- Store of the delete scenario: one session, one chat, two messages. -/
def c8Store : Store := ⟨["s1"], [c8Chat], [c8Msg1, c8Msg2]⟩

/-- Backend that refuses every connection attempt. -/
def backendConnFail : Nat → BackendResult := fun _ => .connError

/-- Backend that answers every attempt with status 500 and an error body. -/
def backend500 : Nat → BackendResult := fun _ => .ok ⟨500, "model failure", []⟩

/-- Observation on the reply of a src/main.go proxy handler: whether the reply
is a sendError reply at all. -/
def isErrorReply : MainOut → Bool
  | .sendError _ _ => true
  | .streamBody _ => false

/-- Chat of the rename scenario, last updated at time 5. -/
def c7Chat : ChatRow := ⟨"c7", "s1", "old title", "m", 0, 5⟩

/-- Store of the rename scenario. -/
def c7Store : Store := ⟨["s1"], [c7Chat], []⟩

/-- Title of 201 characters, 201 bytes long. -/
def longTitle : String := String.mk (List.replicate 201 'a')

theorem accumGen_append_block (c : Chunk) (l : List SinkOp) :
    accumGen (genBlock c ++ l) = fragGen c ++ accumGen l := by
  by_cases h : c.response = "" <;>
    simp [genBlock, accumGen, fragGen, h]

theorem accumChat_append_block (c : Chunk) (l : List SinkOp) :
    accumChat (chatBlock c ++ l) = fragChat c ++ accumChat l := by
  by_cases h : chatGuard c = true
  · simp [chatBlock, accumChat, h]
  · have hfrag : fragChat c = "" := by
      unfold chatGuard at h
      unfold fragChat
      cases hm : c.message with
      | none => rfl
      | some m =>
        rw [hm] at h
        simpa using h
    simp [chatBlock, accumChat, h, hfrag]

theorem relayGen_no_done (cs : List Chunk) (h : ∀ x ∈ cs, x.done = false) :
    relayGen cs = cs.flatMap genBlock := by
  induction cs with
  | nil => rfl
  | cons c rest ih =>
    have hc : c.done = false := h c (by simp)
    have hrest : ∀ x ∈ rest, x.done = false := fun x hx => h x (by simp [hx])
    simp [relayGen, hc, genBlock, ih hrest]

theorem relayChat_no_done (cs : List Chunk) (h : ∀ x ∈ cs, x.done = false) :
    relayChat cs = cs.flatMap chatBlock := by
  induction cs with
  | nil => rfl
  | cons c rest ih =>
    have hc : c.done = false := h c (by simp)
    have hrest : ∀ x ∈ rest, x.done = false := fun x hx => h x (by simp [hx])
    simp [relayChat, hc, chatBlock, ih hrest]

theorem relayGen_done_last (cs : List Chunk) (c : Chunk)
    (hcs : ∀ x ∈ cs, x.done = false) (hc : c.done = true) :
    relayGen (cs ++ [c])
      = cs.flatMap genBlock ++ (genBlock c ++ [SinkOp.writeDone, SinkOp.flush]) := by
  induction cs with
  | nil => simp [relayGen, hc, genBlock]
  | cons x rest ih =>
    have hx : x.done = false := hcs x (by simp)
    have hrest : ∀ y ∈ rest, y.done = false := fun y hy => hcs y (by simp [hy])
    simp [relayGen, hx, genBlock, ih hrest]

theorem relayChat_done_last (cs : List Chunk) (c : Chunk)
    (hcs : ∀ x ∈ cs, x.done = false) (hc : c.done = true) :
    relayChat (cs ++ [c])
      = cs.flatMap chatBlock ++ (chatBlock c ++ [SinkOp.writeDone, SinkOp.flush]) := by
  induction cs with
  | nil => simp [relayChat, hc, chatBlock]
  | cons x rest ih =>
    have hx : x.done = false := hcs x (by simp)
    have hrest : ∀ y ∈ rest, y.done = false := fun y hy => hcs y (by simp [hy])
    simp [relayChat, hx, chatBlock, ih hrest]

theorem accumGen_blocks (cs : List Chunk) (tail : List SinkOp) :
    accumGen (cs.flatMap genBlock ++ tail)
      = (cs.map fragGen).foldr (· ++ ·) "" ++ accumGen tail := by
  induction cs with
  | nil => simp
  | cons c rest ih =>
    simp only [List.flatMap_cons, List.append_assoc, accumGen_append_block,
      List.map_cons, List.foldr_cons, ih, String.append_assoc]

theorem accumChat_blocks (cs : List Chunk) (tail : List SinkOp) :
    accumChat (cs.flatMap chatBlock ++ tail)
      = (cs.map fragChat).foldr (· ++ ·) "" ++ accumChat tail := by
  induction cs with
  | nil => simp
  | cons c rest ih =>
    simp only [List.flatMap_cons, List.append_assoc, accumChat_append_block,
      List.map_cons, List.foldr_cons, ih, String.append_assoc]

theorem foldr_append_base (l : List String) (b : String) :
    l.foldr (· ++ ·) b = l.foldr (· ++ ·) "" ++ b := by
  induction l with
  | nil => simp
  | cons a rest ih => simp [ih, String.append_assoc]

theorem length_le_utf8ByteSize (s : String) : s.length ≤ s.utf8ByteSize := by
  cases s with
  | mk data =>
    simp [String.length, String.utf8ByteSize]
    induction data with
    | nil => simp [String.utf8ByteSize.go]
    | cons c cs ih =>
      simp [String.utf8ByteSize.go]
      have := Char.utf8Size_pos c
      omega

theorem accumClient_eq_concat (cs : List Chunk) :
    accumClient cs = (cs.map fragChat).foldr (· ++ ·) "" := by
  induction cs with
  | nil => rfl
  | cons c rest ih =>
    by_cases h : chatGuard c = true
    · simp [accumClient, h, ih]
    · have hfrag : fragChat c = "" := by
        unfold chatGuard at h
        unfold fragChat
        cases hm : c.message with
        | none => rfl
        | some m =>
          rw [hm] at h
          simpa using h
      simp [accumClient, h, ih, hfrag]

theorem writtenRecords_append (a b : List SinkOp) :
    writtenRecords (a ++ b) = writtenRecords a ++ writtenRecords b := by
  simp [writtenRecords, List.filterMap_append]

theorem writtenRecords_genBlocks (cs : List Chunk) :
    writtenRecords (cs.flatMap genBlock) = cs.filter (fun x => x.response != "") := by
  induction cs with
  | nil => rfl
  | cons c rest ih =>
    rw [List.flatMap_cons, writtenRecords_append, ih]
    by_cases h : c.response = "" <;>
      simp [genBlock, writtenRecords, List.filter_cons, h]

theorem writtenRecords_chatBlocks (cs : List Chunk) :
    writtenRecords (cs.flatMap chatBlock) = cs.filter chatGuard := by
  induction cs with
  | nil => rfl
  | cons c rest ih =>
    rw [List.flatMap_cons, writtenRecords_append, ih]
    by_cases h : chatGuard c = true <;>
      simp [chatBlock, writtenRecords, List.filter_cons, h]

theorem writeDone_not_mem_genBlocks (cs : List Chunk) :
    SinkOp.writeDone ∉ cs.flatMap genBlock := by
  simp only [List.mem_flatMap, not_exists]
  rintro c ⟨_, hmem⟩
  by_cases h : c.response = "" <;> simp [genBlock, h] at hmem

theorem writeDone_not_mem_chatBlocks (cs : List Chunk) :
    SinkOp.writeDone ∉ cs.flatMap chatBlock := by
  simp only [List.mem_flatMap, not_exists]
  rintro c ⟨_, hmem⟩
  by_cases h : chatGuard c = true <;> simp [chatBlock, h] at hmem

/-- Claim C3: for every source stream of records whose final record carries the
done flag (and only that one, the done flag being the terminal signal), the
text accumulated by the browser reader on the relayed stream equals the
concatenation of every record's fragment field in record order, for the
generate relay (response fragments) and for the chat relay (message content
fragments) alike. -/
theorem C3_relay_accumulates_concat (cs : List Chunk) (c : Chunk)
    (hcs : ∀ x ∈ cs, x.done = false) (hc : c.done = true) :
    accumGen (relayGen (cs ++ [c])) = ((cs ++ [c]).map fragGen).foldr (· ++ ·) ""
    ∧ accumChat (relayChat (cs ++ [c])) = ((cs ++ [c]).map fragChat).foldr (· ++ ·) "" := by
  constructor
  · rw [relayGen_done_last cs c hcs hc, accumGen_blocks, accumGen_append_block,
      List.map_append, List.foldr_append,
      foldr_append_base (cs.map fragGen) (List.foldr (· ++ ·) "" (List.map fragGen [c]))]
    simp [accumGen]
  · rw [relayChat_done_last cs c hcs hc, accumChat_blocks, accumChat_append_block,
      List.map_append, List.foldr_append,
      foldr_append_base (cs.map fragChat) (List.foldr (· ++ ·) "" (List.map fragChat [c]))]
    simp [accumChat]

/-- Witness for C3 at the concrete example streams: the generate stream
Hello, empty, world-with-done accumulates to Hello world; the chat stream of
the example scenario accumulates to Hi there. -/
theorem C3_relay_accumulates_concat_witness :
    accumGen (relayGen ([⟨"Hello", none, false⟩, ⟨"", none, false⟩] ++ [⟨" world", none, true⟩]))
      = "Hello world"
    ∧ accumChat (relayChat ([exRec1, exRec2] ++ [exRec3])) = "Hi there" := by
  have h1 := C3_relay_accumulates_concat [⟨"Hello", none, false⟩, ⟨"", none, false⟩]
    ⟨" world", none, true⟩ (by decide) rfl
  have h2 := C3_relay_accumulates_concat [exRec1, exRec2] exRec3 (by decide) rfl
  exact ⟨by rw [h1.1]; decide, by rw [h2.2]; decide⟩

/-- Counterexample for C4 at the three-record example scenario: the chat relay
does not write the third record (whose message content is empty and which
carries the done flag) to the sink; the client receives only the first two
records, followed by the DONE marker in place of the third. -/
theorem C4_counterexample_record_dropped :
    writtenRecords (relayChat [exRec1, exRec2, exRec3]) = [exRec1, exRec2]
    ∧ writtenRecords (relayChat [exRec1, exRec2, exRec3]) ≠ [exRec1, exRec2, exRec3]
    ∧ relayChat [exRec1, exRec2, exRec3]
      = [SinkOp.write exRec1, SinkOp.flush, SinkOp.write exRec2, SinkOp.flush,
         SinkOp.writeDone, SinkOp.flush] := by
  refine ⟨by decide, by decide, by decide⟩

/-- Amended C4: in the record relay of src/unnamed/part_003, every record whose
fragment is non-empty is written to the sink verbatim and the sink is flushed
before the next record is read (the per-record block of writes is emitted in
source order); a record with an empty fragment is skipped, and the record
carrying the done flag is replaced by the DONE marker; hence the records the
client receives are exactly the records with non-empty fragments, in order. -/
theorem C4_amended_relay_blocks (cs : List Chunk) (c : Chunk)
    (hcs : ∀ x ∈ cs, x.done = false) (hc : c.done = true) :
    relayGen (cs ++ [c])
      = cs.flatMap genBlock ++ (genBlock c ++ [SinkOp.writeDone, SinkOp.flush])
    ∧ relayChat (cs ++ [c])
      = cs.flatMap chatBlock ++ (chatBlock c ++ [SinkOp.writeDone, SinkOp.flush])
    ∧ writtenRecords (relayGen (cs ++ [c])) = (cs ++ [c]).filter (fun x => x.response != "")
    ∧ writtenRecords (relayChat (cs ++ [c])) = (cs ++ [c]).filter chatGuard := by
  refine ⟨relayGen_done_last cs c hcs hc, relayChat_done_last cs c hcs hc, ?_, ?_⟩
  · rw [relayGen_done_last cs c hcs hc, writtenRecords_append, writtenRecords_genBlocks,
      writtenRecords_append, List.filter_append]
    have hgen : writtenRecords (genBlock c) = List.filter (fun x => x.response != "") [c] := by
      by_cases h : c.response = "" <;> simp [genBlock, writtenRecords, List.filter_cons, h]
    have hdone : writtenRecords [SinkOp.writeDone, SinkOp.flush] = [] := by decide
    rw [hgen, hdone, List.append_nil]
  · rw [relayChat_done_last cs c hcs hc, writtenRecords_append, writtenRecords_chatBlocks,
      writtenRecords_append, List.filter_append]
    have hchat : writtenRecords (chatBlock c) = List.filter chatGuard [c] := by
      by_cases h : chatGuard c = true <;> simp [chatBlock, writtenRecords, List.filter_cons, h]
    have hdone : writtenRecords [SinkOp.writeDone, SinkOp.flush] = [] := by decide
    rw [hchat, hdone, List.append_nil]

/-- Witness for the amended C4 at the example scenario. -/
theorem C4_amended_relay_blocks_witness :
    relayChat ([exRec1, exRec2] ++ [exRec3])
      = [SinkOp.write exRec1, SinkOp.flush, SinkOp.write exRec2, SinkOp.flush,
         SinkOp.writeDone, SinkOp.flush] := by
  have h := C4_amended_relay_blocks [exRec1, exRec2] exRec3 (by decide) rfl
  rw [h.2.1]; decide

theorem appendMessage_valid (st : Store) (cid role content mid : String) (now : Nat)
    (hr : role = "user" ∨ role = "assistant" ∨ role = "system")
    (hc : content.utf8ByteSize ≤ 50000) :
    appendMessage st cid role content mid now
      = (.ok mid,
         { sessions := st.sessions,
           chats := st.chats.map fun c =>
             if c.id == cid then { c with updatedAt := now } else c,
           msgs := st.msgs ++ [⟨mid, cid, role, content, now⟩] }) := by
  simp [appendMessage, hr, Nat.not_lt.mpr hc]

theorem chatTurn_connError (st : Store) (cid u uid aid : String) (t1 t2 : Nat)
    (hu : u.utf8ByteSize ≤ 50000) :
    chatTurn st cid u uid aid t1 t2 .connError
      = (.err 503 "OLLAMA_ERROR",
         { sessions := st.sessions,
           chats := st.chats.map fun c =>
             if c.id == cid then { c with updatedAt := t1 } else c,
           msgs := st.msgs ++ [⟨uid, cid, "user", u, t1⟩] }) := by
  have h1 := appendMessage_valid st cid "user" u uid t1 (Or.inl rfl) hu
  simp [chatTurn, h1]

theorem chatTurn_stream (st : Store) (cid u uid aid : String) (t1 t2 : Nat)
    (rs : List Chunk) (hu : u.utf8ByteSize ≤ 50000)
    (ha : (accumClient rs).utf8ByteSize ≤ 50000) :
    (chatTurn st cid u uid aid t1 t2 (.stream rs)).1 = .ok ()
    ∧ (chatTurn st cid u uid aid t1 t2 (.stream rs)).2.msgs
        = st.msgs ++ [⟨uid, cid, "user", u, t1⟩,
                      ⟨aid, cid, "assistant", accumClient rs, t2⟩] := by
  have h1 := appendMessage_valid st cid "user" u uid t1 (Or.inl rfl) hu
  have h2 := appendMessage_valid
    { sessions := st.sessions,
      chats := st.chats.map fun c =>
        if c.id == cid then { c with updatedAt := t1 } else c,
      msgs := st.msgs ++ [⟨uid, cid, "user", u, t1⟩] }
    cid "assistant" (accumClient rs) aid t2 (Or.inr (Or.inl rfl)) ha
  simp only [chatTurn, h1, h2]
  exact ⟨trivial, by simp⟩

theorem msgCount_append_one (sess : List String) (chats : List ChatRow)
    (msgs : List MsgRow) (m : MsgRow) (cid : String) :
    msgCount ⟨sess, chats, msgs ++ [m]⟩ cid
      = msgCount ⟨sess, chats, msgs⟩ cid + (if m.chatId == cid then 1 else 0) := by
  by_cases h : m.chatId == cid <;>
    simp [msgCount, List.filter_append, List.filter_cons, h]

/-- Claim C2: in the chat turn driven by sendMessage of src/newscript.js, the
user message is persisted through the messages endpoint before the backend is
called, so it is present even when the backend connection fails; a turn whose
backend stream completes adds exactly two messages to the chat (user then
assistant, the assistant content being the accumulated fragments), and a turn
whose backend call fails before any fragment adds exactly one (the user
message only). -/
theorem C2_chat_turn_message_counts (st : Store) (cid u uid aid : String)
    (t1 t2 : Nat) (rs : List Chunk)
    (hu : u.utf8ByteSize ≤ 50000)
    (ha : (accumClient rs).utf8ByteSize ≤ 50000) :
    (chatTurn st cid u uid aid t1 t2 .connError).2.msgs
      = st.msgs ++ [⟨uid, cid, "user", u, t1⟩]
    ∧ msgCount (chatTurn st cid u uid aid t1 t2 .connError).2 cid
      = msgCount st cid + 1
    ∧ (chatTurn st cid u uid aid t1 t2 (.stream rs)).2.msgs
      = st.msgs ++ [⟨uid, cid, "user", u, t1⟩,
                    ⟨aid, cid, "assistant", accumClient rs, t2⟩]
    ∧ msgCount (chatTurn st cid u uid aid t1 t2 (.stream rs)).2 cid
      = msgCount st cid + 2 := by
  have hconn := chatTurn_connError st cid u uid aid t1 t2 hu
  have hstream := chatTurn_stream st cid u uid aid t1 t2 rs hu ha
  refine ⟨by rw [hconn], ?_, hstream.2, ?_⟩
  · rw [hconn]
    simp [msgCount, List.filter_append, List.filter_cons]
  · have : msgCount (chatTurn st cid u uid aid t1 t2 (.stream rs)).2 cid
        = ((st.msgs ++ [⟨uid, cid, "user", u, t1⟩,
            ⟨aid, cid, "assistant", accumClient rs, t2⟩] : List MsgRow).filter
              fun m => m.chatId == cid).length := by
      unfold msgCount
      rw [hstream.2]
    rw [this]
    simp [msgCount, List.filter_append, List.filter_cons]

/-- Witness for C2 at the example scenario: on the empty chat c1, a clean turn
with the three example records ends with two persisted messages (user hello,
assistant Hi there), a turn with a failed backend connection ends with one. -/
theorem C2_chat_turn_message_counts_witness :
    msgCount (chatTurn turnStore "c1" "hello" "u1" "a1" 1 2
      (.stream [exRec1, exRec2, exRec3])).2 "c1" = 2
    ∧ msgCount (chatTurn turnStore "c1" "hello" "u1" "a1" 1 2 .connError).2 "c1" = 1
    ∧ (chatTurn turnStore "c1" "hello" "u1" "a1" 1 2
        (.stream [exRec1, exRec2, exRec3])).2.msgs
      = [⟨"u1", "c1", "user", "hello", 1⟩, ⟨"a1", "c1", "assistant", "Hi there", 2⟩] := by
  have h := C2_chat_turn_message_counts turnStore "c1" "hello" "u1" "a1" 1 2
    [exRec1, exRec2, exRec3] (by decide) (by decide)
  refine ⟨?_, ?_, ?_⟩
  · rw [h.2.2.2]; decide
  · rw [h.2.1]; decide
  · rw [h.2.2.1]; decide

/-- Counterexample for C5: a chat turn over the truncated source produces a
result and store identical in every component to the turn over the cleanly
completed source, and the generate reader accumulates identical text for a
truncated and a cleanly completed source stream; no Truncated terminal state
distinct from Completed is reported to any caller. -/
theorem C5_counterexample_truncated_indistinguishable :
    exRec1.done = false ∧ exRec2.done = false ∧ exRec3.done = true
    ∧ chatTurn turnStore "c1" "hello" "u1" "a1" 1 2 (.stream truncStream)
      = chatTurn turnStore "c1" "hello" "u1" "a1" 1 2 (.stream cleanStream)
    ∧ accumGen (relayGen [⟨"Hello", none, false⟩])
      = accumGen (relayGen [⟨"Hello", none, false⟩, ⟨"", none, true⟩]) := by
  refine ⟨rfl, rfl, rfl, by decide, by decide⟩

/-- Amended C5: a source that closes after K records without a done flag yields
the concatenation of the first K fragments as the accumulated text (for the
generate and the chat reader alike), the truncated assistant text is still
persisted by the store-backed chat turn, and the only trace of the truncation
is the absence of the DONE marker in the relayed output; no Truncated state is
reported, so the persisting caller treats the truncated and the clean stream
alike. -/
theorem C5_amended_truncated_persist (cs : List Chunk) (hcs : ∀ x ∈ cs, x.done = false)
    (st : Store) (cid u uid aid : String) (t1 t2 : Nat)
    (hu : u.utf8ByteSize ≤ 50000) (ha : (accumClient cs).utf8ByteSize ≤ 50000) :
    accumGen (relayGen cs) = (cs.map fragGen).foldr (· ++ ·) ""
    ∧ accumChat (relayChat cs) = (cs.map fragChat).foldr (· ++ ·) ""
    ∧ accumClient cs = (cs.map fragChat).foldr (· ++ ·) ""
    ∧ SinkOp.writeDone ∉ relayGen cs
    ∧ SinkOp.writeDone ∉ relayChat cs
    ∧ (chatTurn st cid u uid aid t1 t2 (.stream cs)).2.msgs
      = st.msgs ++ [⟨uid, cid, "user", u, t1⟩,
                    ⟨aid, cid, "assistant", accumClient cs, t2⟩] := by
  refine ⟨?_, ?_, accumClient_eq_concat cs, ?_, ?_,
    (chatTurn_stream st cid u uid aid t1 t2 cs hu ha).2⟩
  · rw [relayGen_no_done cs hcs]
    have := accumGen_blocks cs []
    simpa [accumGen] using this
  · rw [relayChat_no_done cs hcs]
    have := accumChat_blocks cs []
    simpa [accumChat] using this
  · rw [relayGen_no_done cs hcs]
    exact writeDone_not_mem_genBlocks cs
  · rw [relayChat_no_done cs hcs]
    exact writeDone_not_mem_chatBlocks cs

/-- Witness for the amended C5 at the truncated example source: the
accumulated text is Hi there and the truncated assistant message is
persisted. -/
theorem C5_amended_truncated_persist_witness :
    accumChat (relayChat truncStream) = "Hi there"
    ∧ (chatTurn turnStore "c1" "hello" "u1" "a1" 1 2 (.stream truncStream)).2.msgs
      = [⟨"u1", "c1", "user", "hello", 1⟩, ⟨"a1", "c1", "assistant", "Hi there", 2⟩] := by
  have h := C5_amended_truncated_persist truncStream (by decide)
    turnStore "c1" "hello" "u1" "a1" 1 2 (by decide) (by decide)
  refine ⟨by rw [h.2.1]; decide, by rw [h.2.2.2.2.2]; decide⟩

/-- Claim C1 is violated by the code: session A, distinct from the owner B,
reads the messages of the chat of B (the message content is returned, not a
Forbidden reply), deletes the chat of B, renames the chat of B, and the chat
turn handler loads the history of the chat of B for session A; no handler
compares the chat owner with the requesting session. -/
theorem C1_cross_session_access_allowed :
    sessA ≠ sessB
    ∧ chatOfB.sessionId = sessB
    ∧ handleChatDetailGet leakStore sessA "c1" = .ok [secretMsg]
    ∧ handleChatDelete leakStore sessA "c1" = (.ok (), ⟨[sessA, sessB], [], [secretMsg]⟩)
    ∧ handleChatUpdate leakStore sessA "c1" "renamed by A" 2
      = (.ok (), ⟨[sessA, sessB], [⟨"c1", sessB, "renamed by A", "mistral", 0, 2⟩], [secretMsg]⟩)
    ∧ ollamaChatHistory leakStore sessA "c1" = .ok [secretMsg] := by
  refine ⟨by decide, rfl, by decide, by decide, by decide, by decide⟩

/-- Claim C8 is violated by the code: deleteChat issues only the single
statement DELETE FROM chats, foreign-key enforcement is never enabled and the
schema declares no cascade, so after a successful delete both messages of the
deleted chat are still in the store, and the message query still returns
them for the dead chat id. -/
theorem C8_delete_leaves_messages :
    handleChatDelete c8Store "s1" "c8" = (.ok (), ⟨["s1"], [], [c8Msg1, c8Msg2]⟩)
    ∧ (deleteChatRows c8Store "c8").msgs = [c8Msg1, c8Msg2]
    ∧ c8Msg1.chatId = "c8" ∧ c8Msg2.chatId = "c8"
    ∧ chatMessages (deleteChatRows c8Store "c8") "c8" = [c8Msg1, c8Msg2] := by
  refine ⟨by decide, by decide, rfl, rfl, by decide⟩

/-- Counterexample for C6: when the backend answers status 500 with an error
body, handleGenerate of src/main.go relays the body as an ordinary 200 event
stream; no error reply carrying the backend status is produced, while the
part_003 dispatcher on the same backend response does surface status and
body. -/
theorem C6_counterexample_status_not_surfaced :
    handleGenerate backend500 = .streamBody "model failure"
    ∧ isErrorReply (handleGenerate backend500) = false
    ∧ callGenerateAPI backend500 = .httpError 500 (rejectMsg 500 "model failure") := by
  refine ⟨rfl, rfl, rfl⟩

/-- Amended C6: a connection failure is surfaced on every path (502 with the
connect message in the part_003 dispatcher, 503 with code OLLAMA_ERROR in
src/main.go); a non-success backend status is surfaced with the backend status
and trimmed body by the part_003 dispatcher, but src/main.go relays the
response body as a 200 stream without surfacing the status; each handler
consults exactly one backend attempt, so no failure is retried. -/
theorem C6_amended_error_surfacing (bc br : Nat → BackendResult) (r : BackendResp)
    (hc : bc 0 = .connError) (hr : br 0 = .ok r) (hs : r.status ≠ 200) :
    callGenerateAPI bc = .httpError 502 connectErrMsg
    ∧ handleGenerate bc = .sendError 503 "OLLAMA_ERROR"
    ∧ callGenerateAPI br = .httpError r.status (rejectMsg r.status r.rawBody)
    ∧ handleGenerate br = .streamBody r.rawBody
    ∧ (∀ b2 : Nat → BackendResult, b2 0 = bc 0 →
        callGenerateAPI b2 = callGenerateAPI bc ∧ handleGenerate b2 = handleGenerate bc)
    ∧ (∀ b2 : Nat → BackendResult, b2 0 = br 0 →
        callGenerateAPI b2 = callGenerateAPI br ∧ handleGenerate b2 = handleGenerate br) := by
  refine ⟨?_, ?_, ?_, ?_, ?_, ?_⟩
  · simp [callGenerateAPI, hc]
  · simp [handleGenerate, hc]
  · simp [callGenerateAPI, hr, hs]
  · simp [handleGenerate, hr]
  · intro b2 h2
    constructor <;> simp [callGenerateAPI, handleGenerate, h2]
  · intro b2 h2
    constructor <;> simp [callGenerateAPI, handleGenerate, h2]

/-- Witness for the amended C6 at the two concrete backends. -/
theorem C6_amended_error_surfacing_witness :
    callGenerateAPI backendConnFail = .httpError 502 connectErrMsg
    ∧ handleGenerate backendConnFail = .sendError 503 "OLLAMA_ERROR"
    ∧ callGenerateAPI backend500 = .httpError 500 (rejectMsg 500 "model failure") := by
  have h := C6_amended_error_surfacing backendConnFail backend500
    ⟨500, "model failure", []⟩ rfl rfl (by decide)
  exact ⟨h.1, h.2.1, h.2.2.1⟩

/-- Counterexample for C7: a rename request at time 7 rewrites updated_at of
the chat from 5 to 7 while appending no message, so appendMessage is not the
only operation that advances updated_at. -/
theorem C7_counterexample_rename_advances :
    (applyOp c7Store 7 (.rename "c7" "new title")).chats
      = [⟨"c7", "s1", "new title", "m", 0, 7⟩]
    ∧ (applyOp c7Store 7 (.rename "c7" "new title")).msgs = c7Store.msgs
    ∧ c7Chat.updatedAt = 5 := by
  refine ⟨by decide, by decide, rfl⟩

theorem find?_map_id_preserving (chats : List ChatRow) (cid : String)
    (f : ChatRow → ChatRow) (hid : ∀ c, (f c).id = c.id) :
    (chats.map f).find? (fun c => c.id == cid)
      = (chats.find? fun c => c.id == cid).map f := by
  induction chats with
  | nil => rfl
  | cons c rest ih =>
    by_cases h : (c.id == cid) = true
    · have hf : ((f c).id == cid) = true := by rw [hid]; exact h
      rw [List.map_cons,
        @List.find?_cons_of_pos ChatRow (fun x => x.id == cid) (f c) (List.map f rest) hf,
        @List.find?_cons_of_pos ChatRow (fun x => x.id == cid) c rest h]
      simp
    · have hf : ¬ ((f c).id == cid) = true := by rw [hid]; exact h
      rw [List.map_cons,
        @List.find?_cons_of_neg ChatRow (fun x => x.id == cid) (f c) (List.map f rest) hf,
        @List.find?_cons_of_neg ChatRow (fun x => x.id == cid) c rest h, ih]

/-- Amended C7: updated_at of a chat is rewritten to the server timestamp both
by a message append (handleMessages) and by a rename (updateChat); these are
the only mutating requests that touch updated_at of an existing chat row, a
delete leaving the surviving rows unchanged and a create leaving the
pre-existing rows unchanged; an append at a timestamp at least the current
updated_at therefore advances it monotonically. -/
theorem C7_amended_updated_at_paths (st : Store)
    (cid role content mid title sid model ncid : String) (now : Nat) (c0 : ChatRow)
    (hr : role = "user" ∨ role = "assistant" ∨ role = "system")
    (hcont : content.utf8ByteSize ≤ 50000)
    (htitle : title.utf8ByteSize ≤ 200)
    (hfound : findChat st cid = some c0)
    (hmono : c0.updatedAt ≤ now) :
    (applyOp st now (.append cid role content mid)).chats
      = st.chats.map (fun ch => if ch.id == cid then { ch with updatedAt := now } else ch)
    ∧ findChat (applyOp st now (.append cid role content mid)) cid
      = some { c0 with updatedAt := now }
    ∧ c0.updatedAt ≤ now
    ∧ (applyOp st now (.rename cid title)).chats
      = st.chats.map (fun ch =>
          if ch.id == cid then { ch with title := title, updatedAt := now } else ch)
    ∧ (∀ ch ∈ (applyOp st now (.delete cid)).chats, ch ∈ st.chats)
    ∧ (∀ ch ∈ st.chats, ch ∈ (applyOp st now (.create sid title model ncid)).chats) := by
  have happend := appendMessage_valid st cid role content mid now hr hcont
  have hmap : (applyOp st now (.append cid role content mid)).chats
      = st.chats.map (fun ch => if ch.id == cid then { ch with updatedAt := now } else ch) := by
    simp only [applyOp, happend]
  refine ⟨hmap, ?_, hmono, ?_, ?_, ?_⟩
  · unfold findChat
    rw [hmap, find?_map_id_preserving st.chats cid _
      (fun c => by by_cases h : (c.id == cid) = true <;> simp [h])]
    unfold findChat at hfound
    rw [hfound]
    have hp : (c0.id == cid) = true :=
      @List.find?_some ChatRow (fun x => x.id == cid) c0 st.chats hfound
    have hpe : c0.id = cid := by simpa using hp
    simp [hpe]
  · simp [applyOp, Nat.not_lt.mpr htitle, renameChatRows]
  · intro ch hch
    simp only [applyOp, deleteChatRows, List.mem_filter] at hch
    exact hch.1
  · intro ch hch
    have hcreate : (applyOp st now (.create sid title model ncid)).chats
        = st.chats
          ++ [⟨ncid, sid, (if title = "" then "New Chat" else title), model, now, now⟩] := by
      simp [applyOp, createChat, Nat.not_lt.mpr htitle]
    rw [hcreate]
    exact List.mem_append_left _ hch

/-- Witness for the amended C7: an append at time 9 on the chat last updated
at time 5 sets updated_at to 9. -/
theorem C7_amended_updated_at_paths_witness :
    (applyOp c7Store 9 (StoreOp.append "c7" "user" "x" "m1")).chats
      = [⟨"c7", "s1", "old title", "m", 0, 9⟩]
    ∧ findChat (applyOp c7Store 9 (StoreOp.append "c7" "user" "x" "m1")) "c7"
      = some ⟨"c7", "s1", "old title", "m", 0, 9⟩ := by
  have h := C7_amended_updated_at_paths c7Store "c7" "user" "x" "m1" "t2" "s1" "m" "c9" 9
    c7Chat (Or.inl rfl) (by decide) (by decide) (by decide) (by decide)
  refine ⟨by rw [h.1]; decide, by rw [h.2.1]; rfl⟩

theorem rlRun_live (R : Nat) (ts : List Nat) :
    (∀ t ∈ ts, t ≤ R) → ∀ m,
      rlRun (some ⟨m, R⟩) ts = (List.range ts.length).map (fun i => decide (m + i < 60)) := by
  induction ts with
  | nil =>
    intro _ m
    rfl
  | cons t ts ih =>
    intro h m
    have ht : t ≤ R := h t (by simp)
    have hts : ∀ x ∈ ts, x ≤ R := fun x hx => h x (by simp [hx])
    have hnot : ¬ R < t := Nat.not_lt.mpr ht
    rw [List.length_cons, List.range_succ_eq_map, List.map_cons, List.map_map]
    by_cases hm : 60 ≤ m
    · have hstep : rlRun (some ⟨m, R⟩) (t :: ts) = false :: rlRun (some ⟨m, R⟩) ts := by
        simp [rlRun, rlAllow, hnot, hm]
      rw [hstep, ih hts m]
      congr 1
      · show false = decide (m + 0 < 60)
        have hd : decide (m + 0 < 60) = false := by
          simp only [decide_eq_false_iff_not]
          omega
        rw [hd]
      · exact List.map_congr_left fun i _ => by
          simp only [Function.comp_apply]
          exact decide_eq_decide.mpr (by omega)
    · have hstep : rlRun (some ⟨m, R⟩) (t :: ts) = true :: rlRun (some ⟨m + 1, R⟩) ts := by
        simp [rlRun, rlAllow, hnot, hm]
      rw [hstep, ih hts (m + 1)]
      congr 1
      · show true = decide (m + 0 < 60)
        have hd : decide (m + 0 < 60) = true := by
          simp only [decide_eq_true_eq]
          omega
        rw [hd]
      · exact List.map_congr_left fun i _ => by
          simp only [Function.comp_apply]
          exact decide_eq_decide.mpr (by omega)

/-- Claim C9: on one rate-limit key (the session header when present, the
remote address otherwise), a run of requests inside one window (each at most
60 time units after the window start) is allowed for exactly the first 60
requests and rejected afterwards; the rejected request is answered 429 with
code RATE_LIMIT; a request strictly after the reset time of a live counter is
allowed and starts a fresh window of count 1. -/
theorem C9_rate_limiter_window (t0 : Nat) (ts : List Nat)
    (hts : ∀ t ∈ ts, t ≤ t0 + 60)
    (c : RequestCounter) (t2 : Nat) (hexp : c.resetTime < t2)
    (sess addr : String) (hsess : sess ≠ "") (next : HandlerResult Unit) :
    rlRun none (t0 :: ts) = (List.range (ts.length + 1)).map (fun i => decide (i < 60))
    ∧ rlAllow (some c) t2 = (true, ⟨1, t2 + 60⟩)
    ∧ withRateLimit (some ⟨60, t0 + 60⟩) t0 next = (.err 429 "RATE_LIMIT", ⟨60, t0 + 60⟩)
    ∧ rateKey sess addr = sess
    ∧ rateKey "" addr = addr := by
  refine ⟨?_, ?_, ?_, ?_, ?_⟩
  · have hstep : rlRun none (t0 :: ts) = true :: rlRun (some ⟨1, t0 + 60⟩) ts := by
      simp [rlRun, rlAllow]
    rw [hstep, rlRun_live (t0 + 60) ts hts 1, List.range_succ_eq_map, List.map_cons,
      List.map_map]
    congr 1
    exact List.map_congr_left fun i _ => by
      simp only [Function.comp_apply]
      exact decide_eq_decide.mpr (by omega)
  · simp [rlAllow, hexp]
  · have h1 : ¬ (t0 + 60 < t0) := by omega
    simp [withRateLimit, rlAllow, h1]
  · simp [rateKey, hsess]
  · simp [rateKey]

/-- Witness for C9: 71 requests inside one window are allowed for the first 60
and rejected for the last 11; an expired counter admits the next request; a
full counter answers 429 RATE_LIMIT. -/
theorem C9_rate_limiter_window_witness :
    rlRun none (0 :: List.replicate 70 5)
      = List.replicate 60 true ++ List.replicate 11 false
    ∧ rlAllow (some ⟨60, 3⟩) 4 = (true, ⟨1, 64⟩)
    ∧ withRateLimit (some ⟨60, 60⟩) 0 (.ok ()) = (.err 429 "RATE_LIMIT", ⟨60, 60⟩) := by
  have h := C9_rate_limiter_window 0 (List.replicate 70 5) (by decide) ⟨60, 3⟩ 4
    (by decide) "s" "a" (by decide) (.ok ())
  refine ⟨?_, h.2.1, h.2.2.1⟩
  rw [h.1]
  decide

/-- Claim C10: createChat rejects a title longer than 200 characters as
VALIDATION_ERROR with the store unchanged (the byte-length check fires on any
such title, the byte length being at least the character count), and an empty
title is replaced by the default New Chat in the chat that is created and
returned. -/
theorem C10_create_chat_validation (st : Store) (sessionId title model chatId : String)
    (now : Nat) (hlong : 200 < title.length) :
    createChat st sessionId title model chatId now = (.err 400 "VALIDATION_ERROR", st)
    ∧ createChat st sessionId "" model chatId now
      = (.ok ⟨chatId, sessionId, "New Chat", model, now, now⟩,
         { st with chats := st.chats ++ [⟨chatId, sessionId, "New Chat", model, now, now⟩] }) := by
  constructor
  · have hb : 200 < title.utf8ByteSize :=
      lt_of_lt_of_le hlong (length_le_utf8ByteSize title)
    simp [createChat, hb]
  · have h0 : ¬ 200 < ("" : String).utf8ByteSize := by decide
    simp [createChat, h0]

/-- Witness for C10 at a 201-character title and at the empty title on the
empty store. -/
theorem C10_create_chat_validation_witness :
    createChat ⟨[], [], []⟩ "s1" longTitle "m" "c1" 3
      = (.err 400 "VALIDATION_ERROR", ⟨[], [], []⟩)
    ∧ createChat ⟨[], [], []⟩ "s1" "" "m" "c1" 3
      = (.ok ⟨"c1", "s1", "New Chat", "m", 3, 3⟩,
         ⟨[], [⟨"c1", "s1", "New Chat", "m", 3, 3⟩], []⟩) := by
  have h := C10_create_chat_validation ⟨[], [], []⟩ "s1" longTitle "m" "c1" 3 (by decide)
  exact ⟨h.1, h.2⟩

end LAIM
